import Mathlib

/-!
Shallow embedding of the lox-rs lexical front end (src/main.rs).

Modelling conventions:
* Rust `String` is modelled as `List Char` (its sequence of characters).
  `String::len`, which Rust defines as the UTF-8 byte count, is modelled by
  `byteLen`, the sum of the UTF-8 sizes of the characters;
  `str::chars().nth(i)` is modelled by `List.get?`.
* A Rust panic (a failed `unwrap`, or falling through the non-exhaustive
  `match` in `scan_token`) is modelled as `none` in an `Option` result;
  abnormal process termination propagates as `none`.
* Console output is not part of the model except where a claim needs it;
  `Lox::report` returns the data of the printed diagnostic line alongside
  the updated state.
-/

namespace LoxRs

/-- UTF-8 byte count of a character sequence: the model of Rust `String::len`. -/
def byteLen (cs : List Char) : Nat := (cs.map Char.utf8Size).sum

/-- `enum TokenKind` from src/main.rs (string payloads as `List Char`). -/
inductive TokenKind where
  | LParen | RParen | LBrace | RBrace | Comma | Period | Minus | Plus
  | Semicolon | Slash | Star
  | Bang | BangEq | Eq | EqEq | Gt | GtEq | Lt | LtEq
  | Ident
  | String (s : List Char)
  | Number (n : Float)
  | And | Class | Else | False | Funct | For | If | Nil | Or | Print
  | Return | Super | This | True | Var | While
  | Eof

/-- `struct Token` from src/main.rs. -/
structure Token where
  kind : TokenKind
  lexeme : List Char
  line : Nat

/-- `struct Scanner` from src/main.rs. -/
structure Scanner where
  source : List Char
  tokens : List Token
  start : Nat
  current : Nat
  line : Nat

/-- `impl Default for Scanner`: empty source, no tokens, offsets 0, line 1. -/
def Scanner.default : Scanner :=
  { source := [], tokens := [], start := 0, current := 0, line := 1 }

/-- `Scanner::new`: the given source, all other fields from `Default`. -/
def Scanner.new (s : List Char) : Scanner :=
  { Scanner.default with source := s }

/-- `Scanner::is_at_end`: `self.current >= self.source.len()` (byte length). -/
def Scanner.is_at_end (s : Scanner) : Bool :=
  s.current ≥ byteLen s.source

/-- `Scanner::advance`: increments `current` FIRST, then reads
`self.source.chars().nth(self.current)` and unwraps it. The failed unwrap
(character index out of range) is the `none` case. -/
def Scanner.advance (s : Scanner) : Option (Char × Scanner) :=
  match s.source.get? (s.current + 1) with
  | none => none
  | some c => some (c, { s with current := s.current + 1 })

/-- Modelled from the spec: `Scanner::add_token` is called by `scan_token`
but is defined nowhere in the source file. Per the spec, an emitted token
carries the kind, the exact source substring consumed for it (`start` up to
`current`) and the current line, appended to the token sequence. -/
def Scanner.add_token (s : Scanner) (kind : TokenKind) : Scanner :=
  { s with tokens :=
      s.tokens ++ [Token.mk kind ((s.source.drop s.start).take (s.current - s.start)) s.line] }

/-- `Scanner::scan_token`: consume one character via `advance` and dispatch.
The source's `match` has a single arm for `'('`; every other character falls
through the non-exhaustive match (modelled as the panic `none`), and a failed
`advance` propagates its panic. -/
def Scanner.scan_token (s : Scanner) : Option Scanner :=
  match s.advance with
  | none => none
  | some (c, t) =>
    if c = '(' then some (t.add_token TokenKind.LParen) else none

/-- The `while !self.is_at_end()` loop of `Scanner::scan_tokens`:
set `start := current`, scan one token, repeat; a panic aborts the loop. -/
def Scanner.scanLoop (s : Scanner) : Option Scanner :=
  if hend : s.is_at_end then some s
  else
    match h : Scanner.scan_token { s with start := s.current } with
    | none => none
    | some t => Scanner.scanLoop t
termination_by byteLen s.source - s.current
decreasing_by
  unfold Scanner.scan_token Scanner.advance at h
  rcases hg : ({ s with start := s.current } : Scanner).source.get?
      (({ s with start := s.current } : Scanner).current + 1) with _ | c
  · rw [hg] at h
    simp at h
  · rw [hg] at h
    simp only at h
    split at h
    · cases h
      simp only at hg
      simp only [Scanner.add_token, Scanner.is_at_end] at *
      have hlt : s.current + 1 ≤ byteLen s.source := by
        have := List.get?_eq_some.mp hg
        have hlen : s.current + 1 < s.source.length := this.choose
        have hby : s.source.length ≤ byteLen s.source := by
          unfold byteLen
          calc s.source.length = (s.source.map Char.utf8Size).length := by simp
            _ ≤ (s.source.map Char.utf8Size).sum := by
                apply List.length_le_sum_of_one_le
                intro i hi
                simp only [List.mem_map] at hi
                obtain ⟨c, _, hc⟩ := hi
                have := Char.utf8Size_pos c
                omega
        omega
      simp at hend
      omega
    · cases h

/-- `Scanner::scan_tokens`: run the loop, then append one `Eof` token with
empty lexeme at the final line and return the token sequence. -/
def Scanner.scan_tokens (s : Scanner) : Option (List Token) :=
  match s.scanLoop with
  | none => none
  | some t => some (t.tokens ++ [Token.mk TokenKind.Eof [] t.line])

/-- The data of one diagnostic line printed by `Lox::report`
(`"[line <N>] Error<where>: <message>"`). -/
structure Diag where
  line : Nat
  where_ : List Char
  message : List Char

/-- `struct Lox` from src/main.rs: the driver state, holding `had_error`. -/
structure Lox where
  had_error : Bool

/-- `#[derive(Default)]` for `Lox`: `had_error` starts `false`. -/
def Lox.default : Lox := { had_error := false }

/-- `Lox::run`: build a Scanner over the source, scan, print each token.
`run` takes `&self`, so the driver state is returned unchanged; a panic in
`scan_tokens` propagates. -/
def Lox.run (lox : Lox) (source : List Char) : Option (Lox × List Token) :=
  match (Scanner.new source).scan_tokens with
  | none => none
  | some tokens => some (lox, tokens)

/-- `Lox::report`: prints the diagnostic line (returned here as data) and
sets `had_error` to `true`. -/
def Lox.report (lox : Lox) (line : Nat) (where_ : List Char) (message : List Char) :
    Lox × Diag :=
  ({ lox with had_error := true },
   { line := line, where_ := where_, message := message })

/-- `Lox::error`: `report` with an empty location qualifier. -/
def Lox.error (lox : Lox) (line : Nat) (message : List Char) : Lox × Diag :=
  lox.report line [] message

/-- `Lox::run_file`: read the file (its contents are the argument here),
`run` it, and `process::exit(65)` if `had_error` is set afterwards; otherwise
`run_file` returns and the process later exits normally with status 0. The
result is the process exit status, `none` for a panic. -/
def Lox.run_file (lox : Lox) (source : List Char) : Option Nat :=
  match lox.run source with
  | none => none
  | some (l, _) => if l.had_error then some 65 else some 0

/-- `Lox::run_prompt`: the REPL loop over the successive lines delivered by
`read_line` (each including its newline; the list ends at end-of-stream,
after which `input` stays empty and the loop breaks). Each iteration: break
on empty input, otherwise `run` the line and then unconditionally set
`had_error := false`. The result is the final driver state, `none` if an
iteration panicked. -/
def Lox.run_prompt (lox : Lox) (lines : List (List Char)) : Option Lox :=
  match lines with
  | [] => some lox
  | line :: rest =>
    if line.isEmpty then some lox
    else
      match lox.run line with
      | none => none
      | some (l, _) => Lox.run_prompt { l with had_error := false } rest

/-- The observable behaviour of `main`, by CLI mode. -/
inductive MainAction where
  | prompted (result : Option Lox)
  | ranFile (result : Option Nat)
  | usage64

/-- `main`: dispatch on `args.len().cmp(&1)` — fewer than one argument runs
the prompt, exactly one runs the named file (whose contents are passed here),
more than one prints the usage message and exits with status 64. -/
def lox_main (args : List (List Char)) (fileContents : List Char)
    (stdinLines : List (List Char)) : MainAction :=
  match compare args.length 1 with
  | Ordering.lt => MainAction.prompted (Lox.default.run_prompt stdinLines)
  | Ordering.eq => MainAction.ranFile (Lox.default.run_file fileContents)
  | Ordering.gt => MainAction.usage64

/-- Evaluation helper: scanning the empty source yields exactly one `Eof`
token with empty lexeme at line 1. -/
theorem scanTokens_nil : (Scanner.new []).scan_tokens = some [Token.mk TokenKind.Eof [] 1] := by
  simp [Scanner.scan_tokens, Scanner.scanLoop, Scanner.new, Scanner.default,
    Scanner.is_at_end, byteLen]

/-- Evaluation helper: scanning the one-character source `"("` panics —
`advance` pre-increments `current` to 1 and `chars().nth(1)` is absent. -/
theorem scanTokens_lparen : (Scanner.new [ '(' ]).scan_tokens = none := by
  simp [Scanner.scan_tokens, Scanner.scanLoop, Scanner.new, Scanner.default,
    Scanner.is_at_end, Scanner.scan_token, Scanner.advance, byteLen, Char.utf8Size]

/-- Evaluation helper: `Lox::run` on the empty source returns the unchanged
state and the single `Eof` token. -/
theorem run_nil : (Lox.mk false).run [] = some (Lox.mk false, [Token.mk TokenKind.Eof [] 1]) := by
  simp [Lox.run, scanTokens_nil]

/-- Claim C1: "for every source, scan_tokens returns a non-empty token
sequence ending in exactly one Eof" fails on the code: on the source `"("`
the scan panics (in `advance`, `current` is pre-incremented and
`chars().nth(1)` does not exist), so no token sequence is produced at all. -/
theorem c1_eof_invariant_fails_on_lparen : (Scanner.new [ '(' ]).scan_tokens = none :=
  scanTokens_lparen

/-- Claim C2: scanning `"("` does not yield `[LParen, Eof]`; the scan pass
aborts with a panic instead of terminating normally. -/
theorem c2_scan_lparen_panics :
    (Scanner.new [ '(' ]).scanLoop = none ∧
      (Scanner.new [ '(' ]).scan_tokens = none := by
  constructor
  · simp [Scanner.scanLoop, Scanner.new, Scanner.default,
      Scanner.is_at_end, Scanner.scan_token, Scanner.advance, byteLen, Char.utf8Size]
  · exact scanTokens_lparen

/-- Claim C3: checking `is_at_end` first does not make `advance` safe: on the
fresh Scanner over `"("`, `is_at_end` is `false` yet `advance` hits the
failed unwrap, and on `"ab"` `advance` skips the first character and returns
`'b'` instead of the next unconsumed character `'a'`. -/
theorem c3_advance_unwrap_reachable :
    (Scanner.new [ '(' ]).is_at_end = false ∧
      (Scanner.new [ '(' ]).advance = none ∧
      (Scanner.new [ 'a', 'b' ]).advance =
        some ('b', { source := [ 'a', 'b' ], tokens := [], start := 0, current := 1, line := 1 }) := by
  refine ⟨?_, rfl, rfl⟩
  simp [Scanner.is_at_end, Scanner.new, Scanner.default, byteLen, Char.utf8Size]

/-- Claim C4: scanning the unterminated string source `"abc` (a double quote
followed by `abc`) does not record an error and continue — it panics on the
second character (`'a'` falls through the single-arm match), so the claimed
error tolerance fails on the code. -/
theorem c4_unterminated_string_panics :
    (Scanner.new [ '"', 'a', 'b', 'c' ]).scan_tokens = none := by
  simp [Scanner.scan_tokens, Scanner.scanLoop, Scanner.new, Scanner.default,
    Scanner.is_at_end, Scanner.scan_token, Scanner.advance, byteLen, Char.utf8Size]

/-- Claim C5: file mode does not exit with status 65 on a source with a
lexical error — on the file contents `"@"` (and even on the lexically valid
`"("`) `run_file` panics, so the process aborts abnormally rather than
reporting exit status 65 or 0. -/
theorem c5_run_file_panics_not_exit :
    Lox.default.run_file [ '@' ] = none ∧ Lox.default.run_file [ '(' ] = none := by
  constructor
  · simp [Lox.run_file, Lox.run, Lox.default, Scanner.scan_tokens, Scanner.scanLoop,
      Scanner.new, Scanner.default, Scanner.is_at_end, Scanner.scan_token,
      Scanner.advance, byteLen, Char.utf8Size]
  · simp [Lox.run_file, Lox.run, Lox.default, scanTokens_lparen]

/-- Claim C6: scanning `"!= == <= >="` does not yield the four two-character
operator tokens — the first `scan_token` reads `'='` (the pre-increment skips
`'!'`) and falls through the single-arm match, so the pass panics. -/
theorem c6_two_char_operators_panic :
    (Scanner.new [ '!', '=', ' ', '=', '=', ' ', '<', '=', ' ', '>', '=' ]).scan_tokens
      = none := by
  simp [Scanner.scan_tokens, Scanner.scanLoop, Scanner.new, Scanner.default,
    Scanner.is_at_end, Scanner.scan_token, Scanner.advance, byteLen, Char.utf8Size]

/-- Claim C7: an error line followed by a valid line is not processed as
claimed: the REPL panics while scanning the first line (`"@\n"`), so the
reset of `had_error` is never reached and the second line (`"(\n"`) is never
read. -/
theorem c7_repl_dies_on_first_line :
    Lox.default.run_prompt [[ '@', '\n' ], [ '(', '\n' ]] = none := by
  simp [Lox.run_prompt, Lox.run, Lox.default, Scanner.scan_tokens, Scanner.scanLoop,
    Scanner.new, Scanner.default, Scanner.is_at_end, Scanner.scan_token,
    Scanner.advance, byteLen, Char.utf8Size]

/-- Claim C8: with more than one command-line argument, `main` prints the
usage message and exits with status 64, constructing no Scanner and producing
no token, whatever the file contents or stdin hold. -/
theorem c8_extra_args_usage64 (args : List (List Char)) (fileContents : List Char)
    (stdinLines : List (List Char)) (h : 1 < args.length) :
    lox_main args fileContents stdinLines = MainAction.usage64 := by
  have hc : compare args.length 1 = Ordering.gt := Nat.compare_eq_gt.mpr h
  simp [lox_main, hc]

/-- Witness for C8 at the concrete argument list `["a", "b"]`. -/
theorem c8_extra_args_usage64_witness :
    1 < ([[ 'a' ], [ 'b' ]] : List (List Char)).length ∧
      lox_main [[ 'a' ], [ 'b' ]] [] [] = MainAction.usage64 :=
  ⟨by decide, c8_extra_args_usage64 [[ 'a' ], [ 'b' ]] [] [] (by decide)⟩

/-- Claim C9: scanning the empty source terminates normally with exactly one
token: `Eof` with empty lexeme at line 1 (the `Default` line counter). -/
theorem c9_empty_source_single_eof :
    (Scanner.new []).scan_tokens = some [Token.mk TokenKind.Eof [] 1] :=
  scanTokens_nil

/-- Claim C10: `Lox::run` never modifies `had_error` (it takes `&self`):
whenever it returns, the state is unchanged; and `report` — also through
`error` — is what sets the flag to `true`. -/
theorem c10_run_preserves_had_error :
    (∀ (lox : Lox) (src : List Char) (l : Lox) (ts : List Token),
        lox.run src = some (l, ts) → l.had_error = lox.had_error) ∧
      (∀ (lox : Lox) (n : Nat) (w m : List Char), (lox.report n w m).1.had_error = true) ∧
      (∀ (lox : Lox) (n : Nat) (m : List Char), (lox.error n m).1.had_error = true) := by
  refine ⟨?_, fun lox n w m => rfl, fun lox n m => rfl⟩
  intro lox src l ts h
  unfold Lox.run at h
  rcases hg : (Scanner.new src).scan_tokens with _ | tokens
  · rw [hg] at h
    cases h
  · rw [hg] at h
    cases h
    rfl

/-- Witness for C10: applying the frame part of the theorem to the concrete
run of the empty source from the fresh driver state. -/
theorem c10_run_preserves_had_error_witness :
    (Lox.mk false).run [] = some (Lox.mk false, [Token.mk TokenKind.Eof [] 1]) ∧
      (Lox.mk false).had_error = (Lox.mk false).had_error :=
  ⟨run_nil,
   c10_run_preserves_had_error.1 (Lox.mk false) [] (Lox.mk false)
     [Token.mk TokenKind.Eof [] 1] run_nil⟩

end LoxRs
